import Mathlib

/-!
# MarketOps authorization kernel — verification development

A shallow embedding of the MarketOps authorization kernel:

* `Mops.FC` — the Federation Core receipt mint
  (`federation_core_receipt_generator.py`): receipts, HMAC signing,
  the policy validator, `authorize_and_issue_receipt` and
  `verify_and_consume_receipt`.
* `Mops.GH` — the GitHub publisher executor (`github_publisher_phase2.py`):
  the binding validator's six checks, the mode gate, and the three
  executor entry points with their audit records.
* `Mops.Chain` — the end-to-end proof chain generator
  (`END_TO_END_PROOF_GENERATOR.py`).

Machine words are `Nat` reduced mod `2 ^ 32`; MD5, SHA-256 and
HMAC-SHA-256 are implemented executably so that the hash-dependent
behaviour of the source (receipt ids, signatures, chain hashes) is
computed, not assumed.  The wall clock is injected: `datetime.utcnow()`
values appear as explicit parameters — ISO-8601 UTC timestamps are
modelled by integers (the parse used by the source is order-isomorphic),
except where the source manipulates them as strings, where they stay
strings.  Timestamps produced inside a call are extra parameters of the
embedded function.
-/

namespace Mops

/-! ## Bytes, words and hex -/

/-- Reduce to a 32-bit word. -/
def m32 (n : Nat) : Nat := n % 4294967296

/-- Rotate a 32-bit word right by `n` bits. -/
def rotr (x n : Nat) : Nat := m32 ((x >>> n) ||| (x <<< (32 - n)))

/-- Rotate a 32-bit word left by `n` bits. -/
def rotl (x n : Nat) : Nat := m32 ((x <<< n) ||| (x >>> (32 - n)))

/-- UTF-8 encoding of one character. -/
def utf8_encode_char (c : Char) : List Nat :=
  let n := c.toNat
  if n < 128 then [n]
  else if n < 2048 then [192 ||| (n >>> 6), 128 ||| (n &&& 63)]
  else if n < 65536 then
    [224 ||| (n >>> 12), 128 ||| ((n >>> 6) &&& 63), 128 ||| (n &&& 63)]
  else
    [240 ||| (n >>> 18), 128 ||| ((n >>> 12) &&& 63),
     128 ||| ((n >>> 6) &&& 63), 128 ||| (n &&& 63)]

/-- UTF-8 encoding of a string, as Python's `str.encode()`. -/
def utf8_bytes (s : String) : List Nat := (s.data.map utf8_encode_char).flatten

/-- `k` bytes of `v`, big-endian. -/
def be_bytes (k v : Nat) : List Nat :=
  (List.range k).map (fun i => (v >>> (8 * (k - 1 - i))) &&& 255)

/-- `k` bytes of `v`, little-endian. -/
def le_bytes (k v : Nat) : List Nat :=
  (List.range k).map (fun i => (v >>> (8 * i)) &&& 255)

/-- Split into 64-byte blocks (fuel-driven; fuel `l.length` suffices). -/
def chunks_fuel : Nat → List Nat → List (List Nat)
  | 0, _ => []
  | _, [] => []
  | Nat.succ f, xs => xs.take 64 :: chunks_fuel f (xs.drop 64)

def chunks64 (l : List Nat) : List (List Nat) := chunks_fuel l.length l

/-- 32-bit words from bytes, big-endian. -/
def words_be : List Nat → List Nat
  | a :: b :: c :: d :: rest =>
    ((a <<< 24) ||| (b <<< 16) ||| (c <<< 8) ||| d) :: words_be rest
  | _ => []

/-- 32-bit words from bytes, little-endian. -/
def words_le : List Nat → List Nat
  | a :: b :: c :: d :: rest =>
    (a ||| (b <<< 8) ||| (c <<< 16) ||| (d <<< 24)) :: words_le rest
  | _ => []

def hex_digit (n : Nat) : Char :=
  match n with
  | 0 => '0' | 1 => '1' | 2 => '2' | 3 => '3' | 4 => '4'
  | 5 => '5' | 6 => '6' | 7 => '7' | 8 => '8' | 9 => '9'
  | 10 => 'a' | 11 => 'b' | 12 => 'c' | 13 => 'd' | 14 => 'e'
  | _ => 'f'

def bytes_hex_chars : List Nat → List Char
  | [] => []
  | b :: bs => hex_digit ((b >>> 4) &&& 15) :: hex_digit (b &&& 15) :: bytes_hex_chars bs

/-- Lowercase hex rendering, as Python's `hexdigest()`. -/
def bytes_to_hex (bs : List Nat) : String := String.mk (bytes_hex_chars bs)

/-! ## SHA-256 -/

def sha_k : List Nat :=
  [1116352408, 1899447441, 3049323471, 3921009573, 961987163, 1508970993,
   2453635748, 2870763221, 3624381080, 310598401, 607225278, 1426881987,
   1925078388, 2162078206, 2614888103, 3248222580, 3835390401, 4022224774,
   264347078, 604807628, 770255983, 1249150122, 1555081692, 1996064986,
   2554220882, 2821834349, 2952996808, 3210313671, 3336571891, 3584528711,
   113926993, 338241895, 666307205, 773529912, 1294757372, 1396182291,
   1695183700, 1986661051, 2177026350, 2456956037, 2730485921, 2820302411,
   3259730800, 3345764771, 3516065817, 3600352804, 4094571909, 275423344,
   430227734, 506948616, 659060556, 883997877, 958139571, 1322822218,
   1537002063, 1747873779, 1955562222, 2024104815, 2227730452, 2361852424,
   2428436474, 2756734187, 3204031479, 3329325298]

structure H8 where
  a : Nat
  b : Nat
  c : Nat
  d : Nat
  e : Nat
  f : Nat
  g : Nat
  h : Nat

/-- Extend the 16 message words to the 64-word schedule. -/
def sha_schedule (w16 : List Nat) : List Nat :=
  (List.range 48).foldl
    (fun w _ =>
      let i := w.length
      let w15 := w.getD (i - 15) 0
      let w2 := w.getD (i - 2) 0
      let s0 := rotr w15 7 ^^^ rotr w15 18 ^^^ (w15 >>> 3)
      let s1 := rotr w2 17 ^^^ rotr w2 19 ^^^ (w2 >>> 10)
      w ++ [m32 (w.getD (i - 16) 0 + s0 + w.getD (i - 7) 0 + s1)])
    w16

def sha_round (st : H8) (ki wi : Nat) : H8 :=
  let s1 := rotr st.e 6 ^^^ rotr st.e 11 ^^^ rotr st.e 25
  let ch := (st.e &&& st.f) ^^^ ((st.e ^^^ 4294967295) &&& st.g)
  let t1 := m32 (st.h + s1 + ch + ki + wi)
  let s0 := rotr st.a 2 ^^^ rotr st.a 13 ^^^ rotr st.a 22
  let mj := (st.a &&& st.b) ^^^ (st.a &&& st.c) ^^^ (st.b &&& st.c)
  let t2 := m32 (s0 + mj)
  ⟨m32 (t1 + t2), st.a, st.b, st.c, m32 (st.d + t1), st.e, st.f, st.g⟩

def sha_compress (st : H8) (block : List Nat) : H8 :=
  let w := sha_schedule (words_be block)
  let r := (List.range 64).foldl
    (fun s i => sha_round s (sha_k.getD i 0) (w.getD i 0)) st
  ⟨m32 (st.a + r.a), m32 (st.b + r.b), m32 (st.c + r.c), m32 (st.d + r.d),
   m32 (st.e + r.e), m32 (st.f + r.f), m32 (st.g + r.g), m32 (st.h + r.h)⟩

/-- Merkle-Damgard padding: `128`, zeros to 56 mod 64, 8-byte length. -/
def pad_zeros (len : Nat) : Nat := (119 - len % 64) % 64

def sha256_bytes (msg : List Nat) : List Nat :=
  let padded := msg ++ 128 :: (List.replicate (pad_zeros msg.length) 0 ++ be_bytes 8 (8 * msg.length))
  let st := (chunks64 padded).foldl sha_compress
    ⟨1779033703, 3144134277, 1013904242, 2773480762,
     1359893119, 2600822924, 528734635, 1541459225⟩
  be_bytes 4 st.a ++ be_bytes 4 st.b ++ be_bytes 4 st.c ++ be_bytes 4 st.d ++
  be_bytes 4 st.e ++ be_bytes 4 st.f ++ be_bytes 4 st.g ++ be_bytes 4 st.h

/-- `hashlib.sha256(s.encode()).hexdigest()`. -/
def sha256_hex (s : String) : String := bytes_to_hex (sha256_bytes (utf8_bytes s))

/-! ## MD5 -/

def md5_k : List Nat :=
  [3614090360, 3905402710, 606105819, 3250441966, 4118548399, 1200080426,
   2821735955, 4249261313, 1770035416, 2336552879, 4294925233, 2304563134,
   1804603682, 4254626195, 2792965006, 1236535329, 4129170786, 3225465664,
   643717713, 3921069994, 3593408605, 38016083, 3634488961, 3889429448,
   568446438, 3275163606, 4107603335, 1163531501, 2850285829, 4243563512,
   1735328473, 2368359562, 4294588738, 2272392833, 1839030562, 4259657740,
   2763975236, 1272893353, 4139469664, 3200236656, 681279174, 3936430074,
   3572445317, 76029189, 3654602809, 3873151461, 530742520, 3299628645,
   4096336452, 1126891415, 2878612391, 4237533241, 1700485571, 2399980690,
   4293915773, 2240044497, 1873313359, 4264355552, 2734768916, 1309151649,
   4149444226, 3174756917, 718787259, 3951481745]

def md5_s : List Nat :=
  [7, 12, 17, 22, 7, 12, 17, 22, 7, 12, 17, 22, 7, 12, 17, 22,
   5, 9, 14, 20, 5, 9, 14, 20, 5, 9, 14, 20, 5, 9, 14, 20,
   4, 11, 16, 23, 4, 11, 16, 23, 4, 11, 16, 23, 4, 11, 16, 23,
   6, 10, 15, 21, 6, 10, 15, 21, 6, 10, 15, 21, 6, 10, 15, 21]

def md5_g (i : Nat) : Nat :=
  if i < 16 then i
  else if i < 32 then (5 * i + 1) % 16
  else if i < 48 then (3 * i + 5) % 16
  else (7 * i) % 16

def md5_f (i b c d : Nat) : Nat :=
  if i < 16 then (b &&& c) ||| ((b ^^^ 4294967295) &&& d)
  else if i < 32 then (d &&& b) ||| ((d ^^^ 4294967295) &&& c)
  else if i < 48 then b ^^^ c ^^^ d
  else c ^^^ (b ||| (d ^^^ 4294967295))

structure H4 where
  a : Nat
  b : Nat
  c : Nat
  d : Nat

def md5_compress (st : H4) (block : List Nat) : H4 :=
  let mwords := words_le block
  let r := (List.range 64).foldl
    (fun (s : H4) i =>
      let f := m32 (md5_f i s.b s.c s.d + s.a + md5_k.getD i 0 + mwords.getD (md5_g i) 0)
      ⟨s.d, m32 (s.b + rotl f (md5_s.getD i 0)), s.b, s.c⟩)
    st
  ⟨m32 (st.a + r.a), m32 (st.b + r.b), m32 (st.c + r.c), m32 (st.d + r.d)⟩

def md5_bytes (msg : List Nat) : List Nat :=
  let padded := msg ++ 128 :: (List.replicate (pad_zeros msg.length) 0 ++ le_bytes 8 (8 * msg.length))
  let st := (chunks64 padded).foldl md5_compress
    ⟨1732584193, 4023233417, 2562383102, 271733878⟩
  le_bytes 4 st.a ++ le_bytes 4 st.b ++ le_bytes 4 st.c ++ le_bytes 4 st.d

/-- `hashlib.md5(s.encode()).hexdigest()`. -/
def md5_hex (s : String) : String := bytes_to_hex (md5_bytes (utf8_bytes s))

/-! ## HMAC-SHA-256 (`hmac.new(key, msg, hashlib.sha256)`) -/

def hmac_sha256_bytes (key msg : List Nat) : List Nat :=
  let k0 := if 64 < key.length then sha256_bytes key else key
  let kp := k0 ++ List.replicate (64 - k0.length) 0
  let ipad := kp.map (fun b => b ^^^ 54)
  let opad := kp.map (fun b => b ^^^ 92)
  sha256_bytes (opad ++ sha256_bytes (ipad ++ msg))

/-- `hmac.new(secret.encode(), msg.encode(), hashlib.sha256).hexdigest()`. -/
def hmac_sha256_hex (secret msg : String) : String :=
  bytes_to_hex (hmac_sha256_bytes (utf8_bytes secret) (utf8_bytes msg))

end Mops

/-! Known test vectors pinning the hash implementations. -/

set_option maxRecDepth 100000

theorem sha256_vector_abc :
    Mops.sha256_hex "abc" =
      "ba7816bf8f01cfea414140de5dae2223b00361a396177a9cb410ff61f20015ad" := by
  decide

theorem md5_vector_abc :
    Mops.md5_hex "abc" = "900150983cd24fb0d6963f7d28e17f72" := by
  decide

theorem hmac_sha256_vector_jefe :
    Mops.hmac_sha256_hex "Jefe" "what do ya want for nothing?" =
      "5bdcc146bf60754e6a042426089575c75a003f089d2739839dec58b964ec3843" := by
  decide

namespace Mops

/-! ## Python string helpers -/

/-- First-match association lookup, as reading a Python `dict` key. -/
def assoc_lookup {α : Type} : List (String × α) → String → Option α
  | [], _ => none
  | (k, v) :: rest, key => if k = key then some v else assoc_lookup rest key

/-- Write a Python `dict` key: replace the entry or append a fresh one. -/
def assoc_update {α : Type} : List (String × α) → String → α → List (String × α)
  | [], key, v => [(key, v)]
  | (k, w) :: rest, key, v =>
    if k = key then (key, v) :: rest else (k, w) :: assoc_update rest key v

/-- Does `needle` start `hay`? -/
def starts_with_chars : List Char → List Char → Bool
  | [], _ => true
  | _ :: _, [] => false
  | a :: as, b :: bs => a == b && starts_with_chars as bs

/-- Substring containment over char lists. -/
def has_sub (needle : List Char) : List Char → Bool
  | [] => needle.isEmpty
  | c :: rest => starts_with_chars needle (c :: rest) || has_sub needle rest

/-- Python's `needle in hay` on strings. -/
def str_contains (hay needle : String) : Bool := has_sub needle.data hay.data

/-- `str.split(sep)` for a non-empty separator, by fuel-driven scan
(each step shortens the text, so `length + 1` fuel suffices). -/
def split_fuel (sep : List Char) : Nat → List Char → List Char → List (List Char)
  | 0, s, acc => [acc.reverse ++ s]
  | Nat.succ f, s, acc =>
    match s with
    | [] => [acc.reverse]
    | c :: rest =>
      if starts_with_chars sep (c :: rest) && !sep.isEmpty then
        acc.reverse :: split_fuel sep f ((c :: rest).drop sep.length) []
      else split_fuel sep f rest (c :: acc)

/-- Python's `s.split(sep)` (the source only splits on `">="` and `"/"`). -/
def py_split (s sep : String) : List String :=
  (split_fuel sep.data (s.data.length + 1) s.data []).map String.mk

/-- Python's `str.strip()` (ASCII whitespace at both ends). -/
def py_strip (s : String) : String :=
  String.mk (((s.data.dropWhile Char.isWhitespace).reverse.dropWhile Char.isWhitespace).reverse)

def digits_val (ds : List Char) : Option Nat :=
  if !ds.isEmpty && ds.all Char.isDigit then
    some (ds.foldl (fun a c => 10 * a + (c.toNat - 48)) 0)
  else none

/-- Python's `int(s)` on decimal literals: optional sign after stripping
whitespace, digits only (underscore separators are not modelled). -/
def py_int (s : String) : Option Int :=
  match (py_strip s).data with
  | '-' :: ds => (digits_val ds).map (fun n => -(n : Int))
  | '+' :: ds => (digits_val ds).map (fun n => (n : Int))
  | ds => (digits_val ds).map (fun n => (n : Int))

/-- `fnmatch.fnmatch` for patterns made of literals, `*` and `?`
(the source's policies use no `[...]` character classes).  Fuel-driven:
every recursive call shortens `pat` or `s`, so
`pat.length + s.length + 1` fuel suffices. -/
def glob_fuel : Nat → List Char → List Char → Bool
  | 0, _, _ => false
  | Nat.succ f, pat, s =>
    match pat, s with
    | [], rest => rest.isEmpty
    | p :: ps, rest =>
      if p == '*' then
        glob_fuel f ps rest ||
          (match rest with
           | [] => false
           | _ :: rest2 => glob_fuel f (p :: ps) rest2)
      else
        match rest with
        | [] => false
        | c :: rest2 => (p == '?' || p == c) && glob_fuel f ps rest2

def glob_match (pat s : List Char) : Bool :=
  glob_fuel (pat.length + s.length + 1) pat s

/-- Python single quote, kept out of literals as an escape. -/
def py_q : String := "\x27"

/-- `repr` of a Python string without quotes or backslashes inside. -/
def py_repr_str (s : String) : String := py_q ++ s ++ py_q

/-- `repr` of `Optional[str]`. -/
def py_repr_opt : Option String → String
  | none => "None"
  | some s => py_repr_str s

/-- `repr` of a Python bool. -/
def py_bool : Bool → String
  | true => "True"
  | false => "False"

/-- `str` of a Python list of strings. -/
def py_repr_str_list (xs : List String) : String :=
  "[" ++ String.intercalate ", " (xs.map py_repr_str) ++ "]"

/-- `repr` of a Python `dict[str, bool]` (insertion order). -/
def py_repr_checks (xs : List (String × Bool)) : String :=
  "\x7b" ++
    String.intercalate ", " (xs.map (fun kv => py_repr_str kv.1 ++ ": " ++ py_bool kv.2)) ++
  "\x7d"

namespace FC

/-! ## `federation_core_receipt_generator.py` -/

/-- `AuthorizationDecision` -/
inductive AuthorizationDecision
  | approved
  | denied
  | deferred
deriving DecidableEq

def decision_value : AuthorizationDecision → String
  | .approved => "approved"
  | .denied => "denied"
  | .deferred => "deferred"

/-- `repr` of the `str`-mixin enum member, as it appears inside
`str(sorted(...))` of the evidence dict. -/
def decision_repr (d : AuthorizationDecision) : String :=
  "<AuthorizationDecision." ++
    (match d with
     | .approved => "APPROVED"
     | .denied => "DENIED"
     | .deferred => "DEFERRED") ++
  ": " ++ py_repr_str (decision_value d) ++ ">"

/-- `OperationKind` (FC side: three variants). -/
inductive OperationKind
  | publish_release
  | tag_repo
  | open_pr
deriving DecidableEq

def kind_value : OperationKind → String
  | .publish_release => "publish_release"
  | .tag_repo => "tag_repo"
  | .open_pr => "open_pr"

/-- `OperationContext` (payload entries are modelled as opaque strings:
no policy check reads into them). -/
structure OperationContext where
  run_id : String
  operation_kind : OperationKind
  repository : String
  payload : List (String × String)
  evidence : List (String × String)
deriving DecidableEq

/-- `AuthorizationEvidence` (`checks` is a `dict[str, bool]`). -/
structure AuthorizationEvidence where
  checked_at : String
  policy_id : String
  decision : AuthorizationDecision
  reason : String
  approvers : List String
  checks : List (String × Bool)
deriving DecidableEq

/-- One `operation_kind`'s entry in `AuthorizationPolicy.rules`; `Option`
models Python key presence (`"allowed_repositories" in op_policy`). -/
structure RuleSet where
  allowed_repositories : Option (List String)
  require_evidence : Option (List String)
  rate_limit : Option Nat
deriving DecidableEq

/-- `AuthorizationPolicy` -/
structure AuthorizationPolicy where
  policy_id : String
  version : String
  rules : List (String × RuleSet)
deriving DecidableEq

/-- `EnforceableReceipt` (FC side). -/
structure EnforceableReceipt where
  receipt_id : String
  run_id : String
  operation_kind : String
  enforceable : Bool
  issued_at : String
  expires_at : String
  issuer : String
  audience : String
  signature : Option String
  evidence_hash : Option String
  consumed : Bool
  consumed_at : Option String
deriving DecidableEq

/-- The signed payload before the `enforceable` entry:
`str(sorted(payload.items()))` lists keys alphabetically
(`audience < enforceable < evidence_hash < expires_at < issued_at <
issuer < operation_kind < receipt_id < run_id`). -/
def payload_pre (r : EnforceableReceipt) : String :=
  "[(" ++ py_repr_str "audience" ++ ", " ++ py_repr_str r.audience ++ "), (" ++
    py_repr_str "enforceable" ++ ", "

/-- The signed payload after the `enforceable` entry. -/
def payload_post (r : EnforceableReceipt) : String :=
  "), (" ++ py_repr_str "evidence_hash" ++ ", " ++ py_repr_opt r.evidence_hash ++ "), (" ++
  py_repr_str "expires_at" ++ ", " ++ py_repr_str r.expires_at ++ "), (" ++
  py_repr_str "issued_at" ++ ", " ++ py_repr_str r.issued_at ++ "), (" ++
  py_repr_str "issuer" ++ ", " ++ py_repr_str r.issuer ++ "), (" ++
  py_repr_str "operation_kind" ++ ", " ++ py_repr_str r.operation_kind ++ "), (" ++
  py_repr_str "receipt_id" ++ ", " ++ py_repr_str r.receipt_id ++ "), (" ++
  py_repr_str "run_id" ++ ", " ++ py_repr_str r.run_id ++ ")]"

/-- `payload_str = str(sorted(payload.items()))` of the nine signed fields
(`signature`, `consumed`, `consumed_at` are not part of the payload). -/
def payload_str (r : EnforceableReceipt) : String :=
  payload_pre r ++ py_bool r.enforceable ++ payload_post r

/-- `EnforceableReceipt.sign` -/
def sign (secret : String) (r : EnforceableReceipt) : EnforceableReceipt :=
  { r with signature := some (hmac_sha256_hex secret (payload_str r)) }

/-- `EnforceableReceipt.verify_signature`; `if not self.signature` is
true for both `None` and the empty string. -/
def verify_signature (secret : String) (r : EnforceableReceipt) : Bool :=
  match r.signature with
  | none => false
  | some sig =>
    if sig = "" then false
    else sig == hmac_sha256_hex secret (payload_str r)

end FC

end Mops

namespace Mops

namespace FC

/-- The Python exceptions the validator can raise: `PolicyViolationError`
(caught by `authorize_and_issue_receipt`) and `ValueError` (from
`int(...)` or tuple unpacking inside `_check_evidence_requirements`,
which nothing catches).  `UnauthorizedOperationError` is declared in the
source but never raised. -/
inductive PyErr
  | policyViolation (msg : String)
  | valueError (msg : String)
deriving DecidableEq

/-- What one entry of `require_evidence` does, read off the requirement
string exactly as the loop body of `_check_evidence_requirements` does:
requirements without a `">="` substring are skipped; with one, the string
is split on every `">="` and unpacked into two parts (`ValueError`
otherwise), the value parsed with `int` (`ValueError` on failure) before
the key is compared with `"approval_count"`; other keys are parsed but
never checked. -/
inductive ReqAction
  | skipped
  | malformed
  | checkApproval (v : Int)
  | otherKey
deriving DecidableEq

def parse_req (req : String) : ReqAction :=
  if str_contains req ">=" = false then .skipped
  else
    match py_split req ">=" with
    | [k, v] =>
      match py_int v with
      | none => .malformed
      | some n => if py_strip k = "approval_count" then .checkApproval n else .otherKey
    | _ => .malformed

/-- `AuthorizationPolicyValidator._check_evidence_requirements`
(`approval_count` is compared with `len(evidence.approvers)`). -/
def check_evidence_requirements (requirements : List String) (approvers : List String) :
    Except PyErr Bool :=
  match requirements with
  | [] => .ok true
  | req :: rest =>
    match parse_req req with
    | .skipped => check_evidence_requirements rest approvers
    | .otherKey => check_evidence_requirements rest approvers
    | .malformed => .error (.valueError "invalid evidence requirement")
    | .checkApproval v =>
      if (approvers.length : Int) < v then .ok false
      else check_evidence_requirements rest approvers

/-- `AuthorizationPolicyValidator._matches_pattern` -/
def matches_pattern (text : String) (patterns : List String) : Bool :=
  patterns.any (fun p =>
    if str_contains p "*" then glob_match p.data text.data else text == p)

/-- Check 1 of `validate_operation`: the repository allowlist
(`if "allowed_repositories" in op_policy`). -/
def repo_check (op_policy : RuleSet) (repository : String) : Except PyErr Unit :=
  match op_policy.allowed_repositories with
  | none => .ok ()
  | some allowed =>
    if matches_pattern repository allowed then .ok ()
    else .error (.policyViolation
      ("Repository " ++ py_repr_str repository ++
        " not in allowed list: " ++ py_repr_str_list allowed))

/-- Check 2 of `validate_operation`: the evidence requirements
(`if "require_evidence" in op_policy`). -/
def evidence_check (op_policy : RuleSet) (evidence : AuthorizationEvidence) :
    Except PyErr Bool :=
  match op_policy.require_evidence with
  | none => .ok true
  | some required =>
    match check_evidence_requirements required evidence.approvers with
    | .error e => .error e
    | .ok true => .ok true
    | .ok false =>
      .error (.policyViolation
        ("Evidence requirements not met: " ++ py_repr_str_list required))

/-- `AuthorizationPolicyValidator.validate_operation`: unknown kind, then
repository allowlist, then evidence requirements (rate limits are a
no-op); the first failing check raises `PolicyViolationError`. -/
def validate_operation (policy : AuthorizationPolicy) (context : OperationContext)
    (evidence : AuthorizationEvidence) : Except PyErr Bool :=
  match assoc_lookup policy.rules (kind_value context.operation_kind) with
  | none =>
    .error (.policyViolation
      ("No policy defined for operation_kind " ++
        py_repr_str (kind_value context.operation_kind)))
  | some op_policy =>
    match repo_check op_policy context.repository with
    | .error e => .error e
    | .ok _ => evidence_check op_policy evidence

/-- `ReceiptGenerator._generate_receipt_id`: MD5 of
`f"{run_id}-{operation_kind}-{utcnow}"`, first 16 hex chars.  The
clock read is the `id_now` parameter. -/
def generate_receipt_id (context : OperationContext) (id_now : String) : String :=
  "receipt-" ++
    (md5_hex (context.run_id ++ "-" ++ kind_value context.operation_kind ++ "-" ++ id_now)).take 16

/-- `str(sorted(evidence.to_dict().items()))`: keys alphabetically
(`approvers < checked_at < checks < decision < policy_id < reason`). -/
def evidence_repr (ev : AuthorizationEvidence) : String :=
  "[(" ++ py_repr_str "approvers" ++ ", " ++ py_repr_str_list ev.approvers ++ "), (" ++
  py_repr_str "checked_at" ++ ", " ++ py_repr_str ev.checked_at ++ "), (" ++
  py_repr_str "checks" ++ ", " ++ py_repr_checks ev.checks ++ "), (" ++
  py_repr_str "decision" ++ ", " ++ decision_repr ev.decision ++ "), (" ++
  py_repr_str "policy_id" ++ ", " ++ py_repr_str ev.policy_id ++ "), (" ++
  py_repr_str "reason" ++ ", " ++ py_repr_str ev.reason ++ ")]"

/-- `ReceiptGenerator._hash_evidence` -/
def hash_evidence (ev : AuthorizationEvidence) : String :=
  sha256_hex (evidence_repr ev)

/-- One entry of `ReceiptGenerator.issuance_audit`. -/
structure IssuanceEntry where
  receipt_id : String
  run_id : String
  operation_kind : String
  enforceable : Bool
  decision : String
  issued_at : String
  policy_id : String
deriving DecidableEq

/-- `ReceiptGenerator`'s mutable state: identity, secret, policy and the
issuance ledger (`issued_receipts` is a `dict`, kept as an association
list in insertion order). -/
structure ReceiptGenerator where
  fc_id : String
  fc_secret : String
  policy : AuthorizationPolicy
  audience : String
  issued_receipts : List (String × EnforceableReceipt)
  issuance_audit : List IssuanceEntry
deriving DecidableEq

/-- The default evidence synthesized when `approval_evidence is None`. -/
def default_evidence (policy_id issued_at : String) : AuthorizationEvidence :=
  { checked_at := issued_at
    policy_id := policy_id
    decision := .deferred
    reason := "No evidence provided"
    approvers := []
    checks := [] }

/-- The evidence `authorize_and_issue_receipt` actually validates. -/
def resolve_evidence (st : ReceiptGenerator) (approval_evidence : Option AuthorizationEvidence)
    (issued_at : String) : AuthorizationEvidence :=
  match approval_evidence with
  | some e => e
  | none => default_evidence st.policy.policy_id issued_at

/-- The shared tail of `authorize_and_issue_receipt` after the
try/except: build, sign, record, return. -/
def issue_receipt_tail (st : ReceiptGenerator) (context : OperationContext)
    (receipt_id : String) (enforceable : Bool) (decision : String)
    (ev : AuthorizationEvidence) (issued_at expires_at : String) :
    EnforceableReceipt × ReceiptGenerator :=
  let receipt0 : EnforceableReceipt :=
    { receipt_id := receipt_id
      run_id := context.run_id
      operation_kind := kind_value context.operation_kind
      enforceable := enforceable
      issued_at := issued_at
      expires_at := expires_at
      issuer := st.fc_id
      audience := st.audience
      signature := none
      evidence_hash := some (hash_evidence ev)
      consumed := false
      consumed_at := none }
  let receipt := sign st.fc_secret receipt0
  let entry : IssuanceEntry :=
    { receipt_id := receipt_id
      run_id := context.run_id
      operation_kind := kind_value context.operation_kind
      enforceable := enforceable
      decision := decision
      issued_at := issued_at
      policy_id := st.policy.policy_id }
  (receipt,
   { st with
      issued_receipts := assoc_update st.issued_receipts receipt_id receipt
      issuance_audit := st.issuance_audit ++ [entry] })

/-- `ReceiptGenerator.authorize_and_issue_receipt`.  Clock reads are the
parameters `id_now` (inside `_generate_receipt_id`), `issued_at`
(`now.isoformat() + "Z"`) and `expires_at` (`(now + 1h).isoformat() + "Z"`).
Policy failure is caught and produces an advisory receipt with the
evidence's `reason` overwritten by the failure message; a `ValueError`
from a malformed requirement string is not caught and propagates. -/
def authorize_and_issue_receipt (st : ReceiptGenerator) (context : OperationContext)
    (approval_evidence : Option AuthorizationEvidence)
    (id_now issued_at expires_at : String) :
    Except PyErr (EnforceableReceipt × ReceiptGenerator) :=
  match validate_operation st.policy context (resolve_evidence st approval_evidence issued_at) with
  | .ok _ =>
    .ok (issue_receipt_tail st context (generate_receipt_id context id_now) true "approved"
      (resolve_evidence st approval_evidence issued_at) issued_at expires_at)
  | .error (.policyViolation m) =>
    .ok (issue_receipt_tail st context (generate_receipt_id context id_now) false "denied"
      { resolve_evidence st approval_evidence issued_at with reason := m } issued_at expires_at)
  | .error e => .error e

/-- `AuthorizationError` raised by `verify_and_consume_receipt`. -/
inductive AuthErr
  | invalidSignature (receipt_id : String)
  | notIssued (receipt_id : String)
  | alreadyConsumed (receipt_id : String) (consumed_at : Option String)
deriving DecidableEq

/-- `ReceiptGenerator.verify_and_consume_receipt`: signature, presence,
not-consumed, in that order; on success the stored receipt is mutated to
`consumed = true, consumed_at = now`.  Failures return the state
unchanged (the source raises before mutating anything). -/
def verify_and_consume_receipt (st : ReceiptGenerator) (receipt : EnforceableReceipt)
    (now : String) : Except AuthErr Bool × ReceiptGenerator :=
  if verify_signature st.fc_secret receipt = false then
    (.error (.invalidSignature receipt.receipt_id), st)
  else
    match assoc_lookup st.issued_receipts receipt.receipt_id with
    | none => (.error (.notIssued receipt.receipt_id), st)
    | some stored =>
      if stored.consumed then
        (.error (.alreadyConsumed receipt.receipt_id stored.consumed_at), st)
      else
        (.ok true,
         { st with
            issued_receipts := assoc_update st.issued_receipts receipt.receipt_id
              { stored with consumed := true, consumed_at := some now } })

end FC

end Mops

namespace Mops

namespace GH

/-! ## `github_publisher_phase2.py` -/

/-- `OperationKind` (publisher side: four variants). -/
inductive OperationKind
  | publish_release
  | publish_post
  | tag_repo
  | open_pr
deriving DecidableEq

def kind_value : OperationKind → String
  | .publish_release => "publish_release"
  | .publish_post => "publish_post"
  | .tag_repo => "tag_repo"
  | .open_pr => "open_pr"

/-- `EnforceableReceipt` (publisher side).  `issued_at`/`expires_at` are
ISO-8601 UTC strings in the source, parsed with `datetime.fromisoformat`
for every comparison; they are modelled by their time values (integers,
seconds), which the parse maps to order-isomorphically.  `consumed_at`
likewise. -/
structure EnforceableReceipt where
  receipt_id : String
  run_id : String
  operation_kind : String
  enforceable : Bool
  issued_at : Int
  expires_at : Int
  consumed : Bool
  consumed_at : Option Int
deriving DecidableEq

/-- `EnforceableReceipt.mark_consumed` -/
def mark_consumed (r : EnforceableReceipt) (now : Int) : EnforceableReceipt :=
  { r with consumed := true, consumed_at := some now }

/-- The six `ReceiptValidationError`s of
`ReceiptBindingValidator.validate_binding`, each carrying the data its
message names (the receipt's binding that failed). -/
inductive BindingError
  | cross_run_replay (receipt_run_id expected_run_id : String)
  | cross_operation_replay (receipt_kind expected_kind : String)
  | advisory_rejected (receipt_id : String)
  | already_consumed_replay (receipt_id : String) (consumed_at : Option Int)
  | expired (receipt_id : String) (expires_at : Int)
  | stale (receipt_id : String) (age : Int)
deriving DecidableEq

/-- `MAX_RECEIPT_AGE_HOURS = 24`, in seconds. -/
def max_receipt_age : Int := 86400

/-- `ReceiptBindingValidator.validate_binding`: the six checks in source
order, raising on the first failure. -/
def validate_binding (receipt : EnforceableReceipt) (expected_run_id : String)
    (expected_operation : OperationKind) (now : Int) : Except BindingError Bool :=
  if receipt.run_id ≠ expected_run_id then
    .error (.cross_run_replay receipt.run_id expected_run_id)
  else if receipt.operation_kind ≠ kind_value expected_operation then
    .error (.cross_operation_replay receipt.operation_kind (kind_value expected_operation))
  else if receipt.enforceable = false then
    .error (.advisory_rejected receipt.receipt_id)
  else if receipt.consumed then
    .error (.already_consumed_replay receipt.receipt_id receipt.consumed_at)
  else if receipt.expires_at < now then
    .error (.expired receipt.receipt_id receipt.expires_at)
  else if max_receipt_age < now - receipt.issued_at then
    .error (.stale receipt.receipt_id (now - receipt.issued_at))
  else
    .ok true

/-- `GitHubClient.create_release`'s simulated response. -/
structure ReleaseResponse where
  id : Nat
  url : String
  html_url : String
  tag_name : String
  name : String
  draft : Bool
  prerelease : Bool
  created_at : String
  published_at : String
deriving DecidableEq

def create_release (owner repo tag_name release_name _body : String)
    (draft prerelease : Bool) (now_iso : String) : ReleaseResponse :=
  { id := 12345
    url := "https://api.github.com/repos/" ++ owner ++ "/" ++ repo ++ "/releases/12345"
    html_url := "https://github.com/" ++ owner ++ "/" ++ repo ++ "/releases/tag/" ++ tag_name
    tag_name := tag_name
    name := release_name
    draft := draft
    prerelease := prerelease
    created_at := now_iso
    published_at := now_iso }

/-- `GitHubClient.create_tag`'s simulated response (the nested `tagger`
and `object` dicts are flattened into prefixed fields). -/
structure TagResponse where
  node_id : String
  tag : String
  sha : String
  url : String
  tagger_date : String
  tagger_name : String
  tagger_email : String
  object_sha : String
  object_type : String
  object_url : String
  message : String
deriving DecidableEq

def create_tag (owner repo tag_name sha message : String) (now_iso : String) : TagResponse :=
  { node_id := "MDM6VGFnXzEyMzQ1"
    tag := tag_name
    sha := sha
    url := "https://api.github.com/repos/" ++ owner ++ "/" ++ repo ++ "/git/tags/abc123"
    tagger_date := now_iso
    tagger_name := "MarketOps"
    tagger_email := "marketops@omega.io"
    object_sha := sha
    object_type := "commit"
    object_url := "https://api.github.com/repos/" ++ owner ++ "/" ++ repo ++ "/git/commits/" ++ sha
    message := message }

/-- `GitHubClient.create_pull_request`'s simulated response (the nested
`head`/`base` dicts are flattened). -/
structure PrResponse where
  id : Nat
  number : Nat
  state : String
  title : String
  body : String
  created_at : String
  updated_at : String
  url : String
  html_url : String
  head_ref : String
  base_ref : String
deriving DecidableEq

def create_pull_request (owner repo title body head base : String) (now_iso : String) :
    PrResponse :=
  { id := 67890
    number := 42
    state := "open"
    title := title
    body := body
    created_at := now_iso
    updated_at := now_iso
    url := "https://api.github.com/repos/" ++ owner ++ "/" ++ repo ++ "/pulls/42"
    html_url := "https://github.com/" ++ owner ++ "/" ++ repo ++ "/pull/42"
    head_ref := head
    base_ref := base }

inductive PlatformResponse
  | release (r : ReleaseResponse)
  | tag (t : TagResponse)
  | pr (p : PrResponse)
deriving DecidableEq

/-- The exceptions an executor entry point can raise. -/
inductive ExecErr
  | mode_violation (op_name current_mode : String)
  | no_receipt
  | binding (e : BindingError)
  | rate_limited
  | value_error (msg : String)
deriving DecidableEq

/-- The `status` the except-handler writes:
`"failed" if not isinstance(e, (ModeViolationError, ReceiptValidationError))
else "rejected_by_auth"` — mode violations land on `"rejected_by_auth"`;
no path produces `"rejected_by_mode"`. -/
def audit_status : ExecErr → String
  | .mode_violation _ _ => "rejected_by_auth"
  | .no_receipt => "rejected_by_auth"
  | .binding _ => "rejected_by_auth"
  | .rate_limited => "failed"
  | .value_error _ => "failed"

/-- `type(e).__name__`, the audit's `error_code`. -/
def error_code_of : ExecErr → String
  | .mode_violation _ _ => "ModeViolationError"
  | .no_receipt => "ReceiptValidationError"
  | .binding _ => "ReceiptValidationError"
  | .rate_limited => "Exception"
  | .value_error _ => "ValueError"

/-- `str(e)` for a `ReceiptValidationError` from the binding validator.
Timestamps inside messages render their integer model (a timedelta's
Python formatting is not reproduced). -/
def binding_message : BindingError → String
  | .cross_run_replay rr er =>
    "Receipt run_id " ++ py_repr_str rr ++ " does not match expected run_id " ++
      py_repr_str er ++ " (cross-run replay detected)"
  | .cross_operation_replay rk ek =>
    "Receipt operation_kind " ++ py_repr_str rk ++ " does not match expected operation " ++
      py_repr_str ek ++ " (cross-operation replay detected)"
  | .advisory_rejected rid =>
    "Receipt " ++ rid ++ " is advisory (enforceable=false). " ++
      "Advisory receipts cannot be used for authorization."
  | .already_consumed_replay rid at_ =>
    "Receipt " ++ rid ++ " already consumed at " ++
      (match at_ with | none => "None" | some t => toString t) ++
      " (replay attempt detected)"
  | .expired rid t =>
    "Receipt " ++ rid ++ " expired at " ++ toString t
  | .stale rid age =>
    "Receipt " ++ rid ++ " is stale (issued " ++ toString age ++ " ago). " ++
      "Maximum age is 24 hours."

/-- `str(e)`. -/
def error_message : ExecErr → String
  | .mode_violation op m =>
    op ++ " requires mode=" ++ py_repr_str "prod" ++ ". Current mode: " ++ py_repr_str m
  | .no_receipt => "No receipt provided (required for authorization)"
  | .binding e => binding_message e
  | .rate_limited => "Rate limited"
  | .value_error m => m

/-- `OperationAuditRecord` -/
structure OperationAuditRecord where
  operation_id : String
  run_id : String
  operation_kind : OperationKind
  receipt_id : String
  repository : String
  status : String
  mode : String
  started_at : String
  completed_at : String
  result : Option PlatformResponse
  error_message : Option String
  error_code : Option String
  github_response : Option PlatformResponse
  retry_count : Nat
deriving DecidableEq

/-- `GitHubPublisher`'s mutable state.  `platform_calls` instruments the
embedding: it counts invocations of the platform client (`create_release`
/ `create_tag` / `create_pull_request`) so "no platform call happened"
is statable. -/
structure GitHubPublisher where
  mode : String
  github_token : String
  enable_recovery : Bool
  audit_records : List OperationAuditRecord
  consumed_receipts : List (String × Int)
  request_times : List Int
  platform_calls : Nat
deriving DecidableEq

/-- `GitHubPublisher.__init__`'s fail-closed mode validation. -/
def mk_publisher (github_token mode : String) (enable_recovery : Bool) :
    Except ExecErr GitHubPublisher :=
  if mode = "prod" ∨ mode = "dry_run" then
    .ok { mode := mode, github_token := github_token, enable_recovery := enable_recovery,
          audit_records := [], consumed_receipts := [], request_times := [],
          platform_calls := 0 }
  else .error (.mode_violation "__init__" mode)

deriving instance DecidableEq for Except

/-- What one executor call returns: the raised-or-returned value, the
publisher state after the call, and the receipt object after the call
(the source mutates it in place on success). -/
structure OpOutcome where
  result : Except ExecErr (String × PlatformResponse × OperationAuditRecord)
  state : GitHubPublisher
  receipt : Option EnforceableReceipt
deriving DecidableEq

/-- The except-handler's audit record. -/
def fail_audit (operation_id run_id : String) (kind : OperationKind)
    (receipt : Option EnforceableReceipt) (repository mode started_at completed_at : String)
    (e : ExecErr) : OperationAuditRecord :=
  { operation_id := operation_id
    run_id := run_id
    operation_kind := kind
    receipt_id := match receipt with | some r => r.receipt_id | none => "NONE"
    repository := repository
    status := audit_status e
    mode := mode
    started_at := started_at
    completed_at := completed_at
    result := none
    error_message := some (error_message e)
    error_code := some (error_code_of e)
    github_response := none
    retry_count := 0 }

/-- A failing call: append the audit record, re-raise, leave the receipt
as it was. -/
def fail_outcome (st : GitHubPublisher) (operation_id run_id : String) (kind : OperationKind)
    (receipt : Option EnforceableReceipt) (repository started_at completed_at : String)
    (e : ExecErr) : OpOutcome :=
  { result := .error e
    state := { st with audit_records := st.audit_records ++
        [fail_audit operation_id run_id kind receipt repository st.mode started_at
          completed_at e] }
    receipt := receipt }

/-- `RateLimitManager.can_make_request` prunes `request_times` to the
last hour as a side effect; the pruned list is returned with the answer. -/
def can_make_request (request_times : List Int) (now : Int) : Bool × List Int :=
  let pruned := request_times.filter (fun t => now - 3600 < t)
  (pruned.length < 5000, pruned)

/-- The shared success tail: record the request, consume the receipt
(in-memory object and validator dict), append the `"success"` audit
record and return the response. -/
def success_outcome (st : GitHubPublisher) (pruned : List Int)
    (operation_id run_id : String) (kind : OperationKind) (r : EnforceableReceipt)
    (repository : String) (resp : PlatformResponse) (started_at completed_at : String)
    (now : Int) : OpOutcome :=
  let r2 := mark_consumed r now
  let audit : OperationAuditRecord :=
    { operation_id := operation_id
      run_id := run_id
      operation_kind := kind
      receipt_id := r.receipt_id
      repository := repository
      status := "success"
      mode := st.mode
      started_at := started_at
      completed_at := completed_at
      result := some resp
      error_message := none
      error_code := none
      github_response := some resp
      retry_count := 0 }
  { result := .ok (operation_id, resp, audit)
    state :=
      { st with
          platform_calls := st.platform_calls + 1
          request_times := pruned ++ [now]
          consumed_receipts := assoc_update st.consumed_receipts r.receipt_id now
          audit_records := st.audit_records ++ [audit] }
    receipt := some r2 }

/-- `GitHubPublisher.publish_release`.  `now` is the wall clock (one
call's clock reads are collapsed onto it), `now_iso` its ISO rendering
used in generated ids, timestamps and responses.  The simulated client
is total, so the retry loop exits on its first attempt with
`retry_count = 0`. -/
def publish_release (st : GitHubPublisher) (run_id : String)
    (receipt : Option EnforceableReceipt) (repository tag_name release_name body : String)
    (draft prerelease : Bool) (now : Int) (now_iso : String) : OpOutcome :=
  let operation_id := "pub-release-" ++ (md5_hex (run_id ++ "-" ++ now_iso)).take 8
  let started_at := now_iso
  let fail := fail_outcome st operation_id run_id .publish_release receipt repository
    started_at now_iso
  if st.mode ≠ "prod" then fail (.mode_violation "publish_release" st.mode)
  else
    match receipt with
    | none => fail .no_receipt
    | some r =>
      match validate_binding r run_id .publish_release now with
      | .error be => fail (.binding be)
      | .ok _ =>
        let rl := can_make_request st.request_times now
        let st1 := { st with request_times := rl.2 }
        let fail1 := fail_outcome st1 operation_id run_id .publish_release receipt repository
          started_at now_iso
        if rl.1 = false then fail1 .rate_limited
        else if str_contains repository "/" = false then
          fail1 (.value_error
            ("Repository must be in " ++ py_repr_str "owner/repo" ++ " format, got " ++
              py_repr_str repository))
        else
          match py_split repository "/" with
          | [owner, repo] =>
            let resp := create_release owner repo tag_name release_name body draft
              prerelease now_iso
            success_outcome st1 rl.2 operation_id run_id .publish_release r repository
              (.release resp) started_at now_iso now
          | _ => fail1 (.value_error "too many values to unpack (expected 2)")

/-- `GitHubPublisher.tag_repo` (no `"/" in repository` pre-check: the
unpack itself raises `ValueError` on a malformed repository). -/
def tag_repo (st : GitHubPublisher) (run_id : String)
    (receipt : Option EnforceableReceipt) (repository tag_name target_sha message : String)
    (now : Int) (now_iso : String) : OpOutcome :=
  let operation_id := "tag-repo-" ++ (md5_hex (run_id ++ "-" ++ now_iso)).take 8
  let started_at := now_iso
  let fail := fail_outcome st operation_id run_id .tag_repo receipt repository
    started_at now_iso
  if st.mode ≠ "prod" then fail (.mode_violation "tag_repo" st.mode)
  else
    match receipt with
    | none => fail .no_receipt
    | some r =>
      match validate_binding r run_id .tag_repo now with
      | .error be => fail (.binding be)
      | .ok _ =>
        let rl := can_make_request st.request_times now
        let st1 := { st with request_times := rl.2 }
        let fail1 := fail_outcome st1 operation_id run_id .tag_repo receipt repository
          started_at now_iso
        if rl.1 = false then fail1 .rate_limited
        else
          match py_split repository "/" with
          | [owner, repo] =>
            let resp := create_tag owner repo tag_name target_sha message now_iso
            success_outcome st1 rl.2 operation_id run_id .tag_repo r repository
              (.tag resp) started_at now_iso now
          | _ => fail1 (.value_error "not enough values to unpack (expected 2)")

/-- `GitHubPublisher.open_pr`. -/
def open_pr (st : GitHubPublisher) (run_id : String)
    (receipt : Option EnforceableReceipt) (repository title body head_branch : String)
    (now : Int) (now_iso : String) (base_branch : String := "main") : OpOutcome :=
  let operation_id := "open-pr-" ++ (md5_hex (run_id ++ "-" ++ now_iso)).take 8
  let started_at := now_iso
  let fail := fail_outcome st operation_id run_id .open_pr receipt repository
    started_at now_iso
  if st.mode ≠ "prod" then fail (.mode_violation "open_pr" st.mode)
  else
    match receipt with
    | none => fail .no_receipt
    | some r =>
      match validate_binding r run_id .open_pr now with
      | .error be => fail (.binding be)
      | .ok _ =>
        let rl := can_make_request st.request_times now
        let st1 := { st with request_times := rl.2 }
        let fail1 := fail_outcome st1 operation_id run_id .open_pr receipt repository
          started_at now_iso
        if rl.1 = false then fail1 .rate_limited
        else
          match py_split repository "/" with
          | [owner, repo] =>
            let resp := create_pull_request owner repo title body head_branch base_branch
              now_iso
            success_outcome st1 rl.2 operation_id run_id .open_pr r repository
              (.pr resp) started_at now_iso now
          | _ => fail1 (.value_error "not enough values to unpack (expected 2)")

end GH

end Mops

namespace Mops

namespace Chain

/-! ## `END_TO_END_PROOF_GENERATOR.py` -/

/-- `ProofStep` -/
structure ProofStep where
  step_id : String
  timestamp : String
  description : String
  actor : String
  input_hash : String
  output_hash : String
  signature : String
deriving DecidableEq

/-- `json.dumps` escaping for the two characters that can occur in the
step's string fields (control characters are assumed absent). -/
def json_escape_char (c : Char) : List Char :=
  if c = '\\' then ['\\', '\\']
  else if c = '"' then ['\\', '"']
  else [c]

def json_str (s : String) : String :=
  "\"" ++ String.mk ((s.data.map json_escape_char).flatten) ++ "\""

/-- `json.dumps(step.to_dict(), sort_keys=True)` with the default
separators `", "` and `": "`; the keys in alphabetical order. -/
def step_json (s : ProofStep) : String :=
  "\x7b\"actor\": " ++ json_str s.actor ++
  ", \"description\": " ++ json_str s.description ++
  ", \"input_hash\": " ++ json_str s.input_hash ++
  ", \"output_hash\": " ++ json_str s.output_hash ++
  ", \"signature\": " ++ json_str s.signature ++
  ", \"step_id\": " ++ json_str s.step_id ++
  ", \"timestamp\": " ++ json_str s.timestamp ++ "\x7d"

/-- `json.dumps([s.to_dict() for s in steps], sort_keys=True)`. -/
def chain_data (steps : List ProofStep) : String :=
  "[" ++ String.intercalate ", " (steps.map step_json) ++ "]"

/-- `EndToEndProofGenerator._sign_step` -/
def sign_step (secret_key data : String) : String := hmac_sha256_hex secret_key data

/-- `EndToEndProofGenerator.record_step`: the hashes of the opaque
`input_data`/`output_data` arguments enter as parameters. -/
def record_step (secret_key : String) (steps : List ProofStep)
    (step_id actor description input_hash output_hash timestamp : String) :
    ProofStep × List ProofStep :=
  let step_data := step_id ++ ":" ++ timestamp ++ ":" ++ actor ++ ":" ++
    input_hash ++ ":" ++ output_hash
  let step : ProofStep :=
    { step_id := step_id
      timestamp := timestamp
      description := description
      actor := actor
      input_hash := input_hash
      output_hash := output_hash
      signature := sign_step secret_key step_data }
  (step, steps ++ [step])

/-- What `finalize_chain` returns. -/
structure ProofChainResult where
  proof_id : String
  generated_at : String
  total_steps : Nat
  chain_hash : String
  steps : List ProofStep
deriving DecidableEq

/-- `EndToEndProofGenerator.finalize_chain`; `generated_at` is the
injected clock read. -/
def finalize_chain (steps : List ProofStep) (generated_at : String) : ProofChainResult :=
  let ch := sha256_hex (chain_data steps)
  { proof_id := "proof-" ++ ch.take 16
    generated_at := generated_at
    total_steps := steps.length
    chain_hash := ch
    steps := steps }

end Chain

/-- Modelled from the spec for claim C7 only: the spec's words
"`receipt_id = "receipt-" + 16 hex chars of SHA-256(run_id ∥ ":" ∥
operation_kind ∥ ":" ∥ now)`", to be compared with the source's
`generate_receipt_id`. -/
def receipt_id_spec (run_id operation_kind now : String) : String :=
  "receipt-" ++ (sha256_hex (run_id ++ ":" ++ operation_kind ++ ":" ++ now)).take 16

end Mops

namespace Mops

/-! ## Helper lemmas -/

theorem assoc_lookup_update_self {α : Type} (l : List (String × α)) (k : String) (v : α) :
    assoc_lookup (assoc_update l k v) k = some v := by
  induction l with
  | nil => simp [assoc_update, assoc_lookup]
  | cons hd tl ih =>
    by_cases h : hd.1 = k
    · simp [assoc_update, assoc_lookup, h]
    · simpa [assoc_update, assoc_lookup, h] using ih

theorem assoc_lookup_mem {α : Type} (l : List (String × α)) (k : String) (v : α)
    (h : assoc_lookup l k = some v) : (k, v) ∈ l := by
  induction l with
  | nil => simp [assoc_lookup] at h
  | cons hd tl ih =>
    by_cases hk : hd.1 = k
    · simp [assoc_lookup, hk] at h
      cases hd
      simp_all
    · simp [assoc_lookup, hk] at h
      exact List.mem_cons_of_mem _ (ih h)

theorem bytes_hex_chars_length (bs : List Nat) :
    (bytes_hex_chars bs).length = 2 * bs.length := by
  induction bs with
  | nil => rfl
  | cons b tl ih => simp [bytes_hex_chars, ih]; omega

theorem sha256_bytes_length (msg : List Nat) : (sha256_bytes msg).length = 32 := by
  simp [sha256_bytes, be_bytes]

theorem hmac_hex_ne_empty (secret msg : String) : hmac_sha256_hex secret msg ≠ "" := by
  unfold hmac_sha256_hex bytes_to_hex hmac_sha256_bytes
  intro h
  have hdata := congrArg String.data h
  simp only [String.mk] at hdata
  have hlen := congrArg List.length hdata
  rw [bytes_hex_chars_length, sha256_bytes_length] at hlen
  simp at hlen

namespace FC

/-- Signing only writes `signature`, which the payload excludes. -/
theorem payload_str_sign (secret : String) (r : EnforceableReceipt) :
    payload_str (sign secret r) = payload_str r := rfl

/-- `sign` then `verify_signature` with the same secret succeeds. -/
theorem verify_signature_sign (secret : String) (r : EnforceableReceipt) :
    verify_signature secret (sign secret r) = true := by
  unfold verify_signature sign
  simp only []
  rw [if_neg (hmac_hex_ne_empty secret (payload_str r))]
  exact beq_self_eq_true _

end FC

end Mops

/-! ## The claims -/

/-- The publisher frozen in `dry_run` mode, fresh. -/
def dry_pub : Mops.GH.GitHubPublisher :=
  { mode := "dry_run", github_token := "fake-token", enable_recovery := true,
    audit_records := [], consumed_receipts := [], request_times := [], platform_calls := 0 }

/-- A valid enforceable receipt for `run-1` and the given kind. -/
def gh_rcpt (kind : String) : Mops.GH.EnforceableReceipt :=
  { receipt_id := "receipt-run-1-" ++ kind, run_id := "run-1", operation_kind := kind,
    enforceable := true, issued_at := 0, expires_at := 3600, consumed := false,
    consumed_at := none }

def c1_release : Mops.GH.OpOutcome :=
  Mops.GH.publish_release dry_pub "run-1" (some (gh_rcpt "publish_release"))
    "owner/repo" "v1.0.0" "Release 1.0.0" "Release notes" false false 0 "T0"

def c1_tag : Mops.GH.OpOutcome :=
  Mops.GH.tag_repo dry_pub "run-1" (some (gh_rcpt "tag_repo"))
    "owner/repo" "v1.0.0" "abc123" "Tag message" 0 "T0"

def c1_pr : Mops.GH.OpOutcome :=
  Mops.GH.open_pr dry_pub "run-1" (some (gh_rcpt "open_pr"))
    "owner/repo" "PR Title" "PR body" "feature/branch" 0 "T0"

/-- C1: an executor whose mode is not exactly `"prod"` refuses every
operation with a `ModeViolationError` before any platform call — but the
audit record appended for such a call has status `"rejected_by_auth"`,
not the claimed `"rejected_by_mode"`: the except-handler's
`isinstance (ModeViolationError, ReceiptValidationError)` branch maps
both to `"rejected_by_auth"`, and no code path ever writes the
`"rejected_by_mode"` status that `OperationAuditRecord`'s docstring and
the spec announce.  Evaluated on all three entry points in `dry_run`. -/
theorem mode_gate_audits_rejected_by_auth :
    c1_release.result = .error (.mode_violation "publish_release" "dry_run") ∧
    c1_tag.result = .error (.mode_violation "tag_repo" "dry_run") ∧
    c1_pr.result = .error (.mode_violation "open_pr" "dry_run") ∧
    c1_release.state.platform_calls = 0 ∧
    c1_tag.state.platform_calls = 0 ∧
    c1_pr.state.platform_calls = 0 ∧
    c1_release.state.audit_records.map (fun a => a.status) = ["rejected_by_auth"] ∧
    c1_tag.state.audit_records.map (fun a => a.status) = ["rejected_by_auth"] ∧
    c1_pr.state.audit_records.map (fun a => a.status) = ["rejected_by_auth"] ∧
    "rejected_by_auth" ≠ "rejected_by_mode" := by
  decide

/-- C7 counterexample: at a concrete context and clock read, the minted
`receipt_id` differs from the spec's
`"receipt-" + sha256(run_id ∥ ":" ∥ kind ∥ ":" ∥ now)[:16]` — the source
uses MD5 over a `"-"`-joined payload. -/
theorem receipt_id_not_sha256 :
    Mops.FC.generate_receipt_id
        { run_id := "r-1", operation_kind := .publish_release,
          repository := "omega/app", payload := [], evidence := [] }
        "2024-02-10T12:00:00" ≠
      Mops.receipt_id_spec "r-1" "publish_release" "2024-02-10T12:00:00" := by
  decide

/-- C7 amended: the minted `receipt_id` is `"receipt-"` followed by the
first 16 hex characters of the MD5 digest of run_id, operation_kind and
the clock read joined with `"-"` separators. -/
theorem generate_receipt_id_md5 (context : Mops.FC.OperationContext) (id_now : String) :
    Mops.FC.generate_receipt_id context id_now =
      "receipt-" ++
        (Mops.md5_hex (context.run_id ++ "-" ++ Mops.FC.kind_value context.operation_kind ++
          "-" ++ id_now)).take 16 := rfl

/-- C9: `finalize_chain` returns the SHA-256 of the canonical
(sorted-keys, insertion-order) serialization of the steps as
`chain_hash`, `proof_id = "proof-" + chain_hash[:16]`, `total_steps` the
number of steps, the steps unchanged — and the hash does not depend on
the `generated_at` clock read, so two finalizations of the same step
list agree. -/
theorem finalize_chain_spec (steps : List Mops.Chain.ProofStep) (generated_at : String) :
    (Mops.Chain.finalize_chain steps generated_at).chain_hash =
        Mops.sha256_hex (Mops.Chain.chain_data steps) ∧
    (Mops.Chain.finalize_chain steps generated_at).proof_id =
        "proof-" ++ ((Mops.Chain.finalize_chain steps generated_at).chain_hash.take 16) ∧
    (Mops.Chain.finalize_chain steps generated_at).total_steps = steps.length ∧
    (Mops.Chain.finalize_chain steps generated_at).steps = steps ∧
    ∀ generated_at2,
      (Mops.Chain.finalize_chain steps generated_at2).chain_hash =
        (Mops.Chain.finalize_chain steps generated_at).chain_hash :=
  ⟨rfl, rfl, rfl, rfl, fun _ => rfl⟩

open Mops.GH in
/-- C2: `validate_binding` runs exactly the six checks in the fixed
order run_id, operation_kind, enforceable, not-consumed, not-expired,
not-stale (24-hour maximum age from `issued_at`); the first failing
check determines the raised error, each error carries the failing
receipt's own binding data, and when all six pass the validator returns
`true`.  (The expiry boundary the code actually implements is
`now ≤ expires_at` passes — see C6.) -/
theorem validate_binding_six_checks (r : EnforceableReceipt) (er : String)
    (eo : OperationKind) (now : Int) :
    (validate_binding r er eo now = .ok true ↔
      (r.run_id = er ∧ r.operation_kind = kind_value eo ∧ r.enforceable = true ∧
       r.consumed = false ∧ now ≤ r.expires_at ∧ now - r.issued_at ≤ max_receipt_age)) ∧
    (validate_binding r er eo now = .error (.cross_run_replay r.run_id er) ↔
      r.run_id ≠ er) ∧
    (validate_binding r er eo now =
        .error (.cross_operation_replay r.operation_kind (kind_value eo)) ↔
      (r.run_id = er ∧ r.operation_kind ≠ kind_value eo)) ∧
    (validate_binding r er eo now = .error (.advisory_rejected r.receipt_id) ↔
      (r.run_id = er ∧ r.operation_kind = kind_value eo ∧ r.enforceable = false)) ∧
    (validate_binding r er eo now =
        .error (.already_consumed_replay r.receipt_id r.consumed_at) ↔
      (r.run_id = er ∧ r.operation_kind = kind_value eo ∧ r.enforceable = true ∧
       r.consumed = true)) ∧
    (validate_binding r er eo now = .error (.expired r.receipt_id r.expires_at) ↔
      (r.run_id = er ∧ r.operation_kind = kind_value eo ∧ r.enforceable = true ∧
       r.consumed = false ∧ r.expires_at < now)) ∧
    (validate_binding r er eo now = .error (.stale r.receipt_id (now - r.issued_at)) ↔
      (r.run_id = er ∧ r.operation_kind = kind_value eo ∧ r.enforceable = true ∧
       r.consumed = false ∧ now ≤ r.expires_at ∧ max_receipt_age < now - r.issued_at)) := by
  unfold validate_binding
  split_ifs with h1 h2 h3 h4 h5 h6 <;> (simp_all; try omega)

/-- A receipt whose `expires_at` equals the presentation instant. -/
def c6_receipt : Mops.GH.EnforceableReceipt :=
  { receipt_id := "receipt-6", run_id := "run-1", operation_kind := "publish_release",
    enforceable := true, issued_at := 0, expires_at := 100, consumed := false,
    consumed_at := none }

/-- C6 counterexample: a receipt presented exactly at its `expires_at`
instant is accepted, not rejected as expired — the source's check is
`now > expires_at`, so the boundary passes. -/
theorem expiry_boundary_accepted :
    c6_receipt.expires_at = 100 ∧
    Mops.GH.validate_binding c6_receipt "run-1" .publish_release 100 = .ok true := by
  decide

open Mops.GH in
/-- C6 amended: the expiry check passes exactly when
`now ≤ receipt.expires_at`; a receipt presented strictly after
`expires_at` (`expires_at = now - 1s` included) is rejected as expired,
while the boundary instant `now = expires_at` is accepted. -/
theorem validate_binding_expiry_semantics (r : EnforceableReceipt) (er : String)
    (eo : OperationKind) (now : Int) :
    (validate_binding r er eo now = .error (.expired r.receipt_id r.expires_at) ↔
      (r.run_id = er ∧ r.operation_kind = kind_value eo ∧ r.enforceable = true ∧
       r.consumed = false ∧ r.expires_at < now)) ∧
    ((r.run_id = er ∧ r.operation_kind = kind_value eo ∧ r.enforceable = true ∧
       r.consumed = false ∧ now ≤ r.expires_at ∧ now - r.issued_at ≤ max_receipt_age) ↔
      validate_binding r er eo now = .ok true) := by
  unfold validate_binding
  split_ifs with h1 h2 h3 h4 h5 h6 <;> (simp_all; try omega)

/-- A RuleSet whose only evidence predicate uses the `==` operator. -/
def c8_policy : Mops.FC.AuthorizationPolicy :=
  { policy_id := "policy-eq", version := "1.0",
    rules := [("publish_release",
      { allowed_repositories := none, require_evidence := some ["approval_count == 2"],
        rate_limit := none })] }

def c8_context : Mops.FC.OperationContext :=
  { run_id := "r-8", operation_kind := .publish_release, repository := "any/repo",
    payload := [], evidence := [] }

/-- Zero approvers: `approval_count == 2` is violated. -/
def c8_evidence : Mops.FC.AuthorizationEvidence :=
  { checked_at := "T", policy_id := "policy-eq", decision := .approved, reason := "",
    approvers := [], checks := [] }

/-- A RuleSet whose only evidence predicate uses `>=` with a key other
than `approval_count`. -/
def c8_policy_ge : Mops.FC.AuthorizationPolicy :=
  { policy_id := "policy-ge", version := "1.0",
    rules := [("publish_release",
      { allowed_repositories := none, require_evidence := some ["reviewer_count >= 3"],
        rate_limit := none })] }

/-- C8 counterexample: with `require_evidence = ["approval_count == 2"]`
and evidence violating that predicate (0 approvers), policy validation
succeeds instead of failing with an evidence-requirement error — the
loop only reacts to requirements containing `">="`; and even a `">="`
predicate is not evaluated when its key is not `approval_count`: with
`require_evidence = ["reviewer_count >= 3"]` and evidence satisfying
nothing of the sort, validation also succeeds (the requirement parses
to the ignored other-key case). -/
theorem eq_predicate_ignored :
    c8_evidence.approvers.length ≠ 2 ∧
    Mops.FC.validate_operation c8_policy c8_context c8_evidence = .ok true ∧
    Mops.FC.parse_req "reviewer_count >= 3" = .otherKey ∧
    Mops.FC.validate_operation c8_policy_ge c8_context c8_evidence = .ok true := by
  decide

open Mops Mops.FC in
/-- C8 amended: evidence predicates are enforced only when written with
the `">="` operator: a requirement without a `">="` substring — `"<="`
and `"=="` predicates included — is skipped and can never cause a
failure.  A `">="` requirement is parsed into key and integer bound;
when the key strips to `approval_count` it fails exactly when the
approvers list is shorter than the bound, and with any other key it is
parsed but not enforced.  A failing requirement list surfaces as the
evidence-requirement policy error.  All laws are stated for arbitrary
requirements, bounds and lists. -/
theorem evidence_requirements_only_ge (req : String) (reqs approvers : List String)
    (v : Int) :
    ((∀ q ∈ reqs, str_contains q ">=" = false) →
      check_evidence_requirements reqs approvers = .ok true) ∧
    (str_contains req ">=" = false →
      check_evidence_requirements (req :: reqs) approvers =
        check_evidence_requirements reqs approvers) ∧
    (parse_req req = .otherKey →
      check_evidence_requirements (req :: reqs) approvers =
        check_evidence_requirements reqs approvers) ∧
    (parse_req req = .checkApproval v →
      check_evidence_requirements (req :: reqs) approvers =
        (if (approvers.length : Int) < v then .ok false
         else check_evidence_requirements reqs approvers)) ∧
    (parse_req req = .checkApproval v →
      ((check_evidence_requirements [req] approvers = .ok false ↔
        (approvers.length : Int) < v) ∧
       (check_evidence_requirements [req] approvers = .ok true ↔
        v ≤ (approvers.length : Int)))) ∧
    (∀ (rs : RuleSet) (required : List String) (ev : AuthorizationEvidence),
      rs.require_evidence = some required →
      check_evidence_requirements required ev.approvers = .ok false →
      evidence_check rs ev = .error (.policyViolation
        ("Evidence requirements not met: " ++ py_repr_str_list required))) := by
  refine ⟨?_, ?_, ?_, ?_, ?_, ?_⟩
  · intro h
    induction reqs with
    | nil => rfl
    | cons head tail ih =>
      have hh := h head (List.mem_cons_self _ _)
      rw [check_evidence_requirements, parse_req, hh]
      simp only [if_true]
      exact ih (fun q hq => h q (List.mem_cons_of_mem _ hq))
  · intro h
    have hp : parse_req req = .skipped := by
      rw [parse_req, if_pos h]
    simp [check_evidence_requirements, hp]
  · intro hp
    simp [check_evidence_requirements, hp]
  · intro hp
    simp [check_evidence_requirements, hp]
  · intro hp
    constructor
    · rw [check_evidence_requirements, hp]
      by_cases h : (approvers.length : Int) < v
      · simp [h]
      · simp [h, FC.check_evidence_requirements]
    · rw [check_evidence_requirements, hp]
      by_cases h : (approvers.length : Int) < v
      · simp [h]
      · simp [h, FC.check_evidence_requirements]
        omega
  · intro rs required ev hre hfalse
    simp [evidence_check, hre, hfalse]

open Mops Mops.FC in
/-- C10: a receipt whose `signature` field is unset verifies as `false`
under every secret (no exception is raised), and therefore can never
pass `verify_and_consume_receipt`, whose first check rejects it with
the invalid-signature error and leaves the generator state unchanged. -/
theorem unsigned_receipt_never_verifies (secret now : String) (st : ReceiptGenerator)
    (r : EnforceableReceipt) (h : r.signature = none) :
    verify_signature secret r = false ∧
    verify_and_consume_receipt st r now = (.error (.invalidSignature r.receipt_id), st) := by
  have hv : ∀ s, verify_signature s r = false := by
    intro s
    simp [verify_signature, h]
  refine ⟨hv secret, ?_⟩
  simp [verify_and_consume_receipt, hv st.fc_secret]

open Mops Mops.FC in
/-- C3: `verify_and_consume_receipt` checks signature, presence and
not-already-consumed in that order and stops at the first failure with
the state untouched; on success the stored receipt is overwritten with
`consumed = true, consumed_at = now`, so a second call on the same
receipt fails with the already-consumed error and changes nothing. -/
theorem verify_and_consume_once (st : ReceiptGenerator) (r stored : EnforceableReceipt)
    (now now2 : String)
    (h1 : verify_signature st.fc_secret r = true)
    (h2 : assoc_lookup st.issued_receipts r.receipt_id = some stored)
    (h3 : stored.consumed = false) :
    (verify_and_consume_receipt st r now =
      (.ok true,
       { st with issued_receipts := (assoc_update st.issued_receipts r.receipt_id
          { stored with consumed := true, consumed_at := some now }) })) ∧
    (assoc_lookup (verify_and_consume_receipt st r now).2.issued_receipts r.receipt_id =
      some { stored with consumed := true, consumed_at := some now }) ∧
    ((verify_and_consume_receipt (verify_and_consume_receipt st r now).2 r now2).1 =
      .error (.alreadyConsumed r.receipt_id (some now))) ∧
    ((verify_and_consume_receipt (verify_and_consume_receipt st r now).2 r now2).2 =
      (verify_and_consume_receipt st r now).2) ∧
    (∀ (st2 : ReceiptGenerator) (r2 : EnforceableReceipt) (n : String),
      (verify_signature st2.fc_secret r2 = false →
        verify_and_consume_receipt st2 r2 n = (.error (.invalidSignature r2.receipt_id), st2)) ∧
      (verify_signature st2.fc_secret r2 = true →
        assoc_lookup st2.issued_receipts r2.receipt_id = none →
        verify_and_consume_receipt st2 r2 n = (.error (.notIssued r2.receipt_id), st2)) ∧
      (∀ s2, verify_signature st2.fc_secret r2 = true →
        assoc_lookup st2.issued_receipts r2.receipt_id = some s2 → s2.consumed = true →
        verify_and_consume_receipt st2 r2 n =
          (.error (.alreadyConsumed r2.receipt_id s2.consumed_at), st2))) := by
  have hmain : verify_and_consume_receipt st r now =
      (.ok true,
       { st with issued_receipts := (assoc_update st.issued_receipts r.receipt_id
          { stored with consumed := true, consumed_at := some now }) }) := by
    simp [verify_and_consume_receipt, h1, h2, h3]
  refine ⟨hmain, ?_, ?_, ?_, ?_⟩
  · rw [hmain]
    exact assoc_lookup_update_self _ _ _
  · rw [hmain]
    simp [verify_and_consume_receipt, h1, assoc_lookup_update_self]
  · rw [hmain]
    simp [verify_and_consume_receipt, h1, assoc_lookup_update_self]
  · intro st2 r2 n
    refine ⟨?_, ?_, ?_⟩
    · intro hv
      simp [verify_and_consume_receipt, hv]
    · intro hv hl
      simp [verify_and_consume_receipt, hv, hl]
    · intro s2 hv hl hc
      simp [verify_and_consume_receipt, hv, hl, hc]

/-- A signed FC receipt held in a generator's ledger, for the witnesses. -/
def c3_receipt : Mops.FC.EnforceableReceipt :=
  Mops.FC.sign "test-secret-key"
    { receipt_id := "receipt-1", run_id := "run-1", operation_kind := "publish_release",
      enforceable := true, issued_at := "T1", expires_at := "T2",
      issuer := "federation-core-test", audience := "github-publisher",
      signature := none, evidence_hash := some "eh", consumed := false,
      consumed_at := none }

def c3_gen : Mops.FC.ReceiptGenerator :=
  { fc_id := "federation-core-test", fc_secret := "test-secret-key",
    policy := { policy_id := "policy-test-v1", version := "1.0", rules := [] },
    audience := "github-publisher",
    issued_receipts := [("receipt-1", c3_receipt)], issuance_audit := [] }

/-- C3 witness: the hypotheses hold at a concrete generator and receipt,
where the first consumption succeeds. -/
theorem verify_and_consume_once_witness :
    (Mops.FC.verify_and_consume_receipt c3_gen c3_receipt "T9").1 = .ok true := by
  have h := verify_and_consume_once c3_gen c3_receipt c3_receipt "T9" "T10"
    (by decide) (by decide) (by decide)
  rw [h.1]

/-- An unsigned FC receipt. -/
def c10_receipt : Mops.FC.EnforceableReceipt :=
  { receipt_id := "receipt-10", run_id := "run-1", operation_kind := "publish_release",
    enforceable := true, issued_at := "T1", expires_at := "T2",
    issuer := "federation-core", audience := "github-publisher",
    signature := none, evidence_hash := none, consumed := false, consumed_at := none }

/-- C10 witness: a concrete unsigned receipt fails verification. -/
theorem unsigned_receipt_never_verifies_witness :
    Mops.FC.verify_signature "any-secret" c10_receipt = false :=
  (unsigned_receipt_never_verifies "any-secret" "T" c3_gen c10_receipt rfl).1

namespace Mops

namespace FC

/-- Flip the `enforceable` bit of a receipt (a post-signing mutation). -/
def flip_enforceable (r : EnforceableReceipt) : EnforceableReceipt :=
  { r with enforceable := !r.enforceable }

/-- Flipping `enforceable` changes the signed payload (the rendering of
the bit changes length, so the canonical strings differ). -/
theorem payload_str_flip_ne (r : EnforceableReceipt) :
    payload_str (flip_enforceable r) ≠ payload_str r := by
  intro h
  have hlen := congrArg String.length h
  cases hr : r.enforceable <;>
    simp [flip_enforceable, payload_str, payload_pre, payload_post, py_bool, hr,
      String.length_append] at hlen <;>
    exact absurd hlen (by decide)

end FC

end Mops

open Mops Mops.FC in
/-- C4: `sign` then `verify_signature` with the same secret on the
unmodified receipt is `true`; under the standing assumption that
HMAC-SHA-256 does not collide on the concerned inputs (the two
hypotheses), verification with a different secret is `false`, and
flipping the `enforceable` bit after signing makes verification with
the original secret `false` — the flipped payload itself provably
differs. -/
theorem sign_verify_tamper_detect (r : EnforceableReceipt) (secret other : String)
    (h_other : hmac_sha256_hex other (payload_str r) ≠ hmac_sha256_hex secret (payload_str r))
    (h_flip : hmac_sha256_hex secret (payload_str (flip_enforceable r)) ≠
      hmac_sha256_hex secret (payload_str r)) :
    verify_signature secret (sign secret r) = true ∧
    verify_signature other (sign secret r) = false ∧
    verify_signature secret (flip_enforceable (sign secret r)) = false ∧
    payload_str (flip_enforceable (sign secret r)) ≠ payload_str r := by
  refine ⟨verify_signature_sign secret r, ?_, ?_, ?_⟩
  · unfold verify_signature sign
    simp only []
    rw [if_neg (hmac_hex_ne_empty secret (payload_str r))]
    exact beq_eq_false_iff_ne.mpr (Ne.symm h_other)
  · show verify_signature secret
      { r with enforceable := !r.enforceable,
               signature := some (hmac_sha256_hex secret (payload_str r)) } = false
    unfold verify_signature
    simp only []
    rw [if_neg (hmac_hex_ne_empty secret (payload_str r))]
    exact beq_eq_false_iff_ne.mpr (Ne.symm h_flip)
  · exact payload_str_flip_ne r

/-- A concrete receipt for the C4 witness. -/
def c4_receipt : Mops.FC.EnforceableReceipt :=
  { receipt_id := "receipt-4", run_id := "run-1", operation_kind := "publish_release",
    enforceable := true, issued_at := "T1", expires_at := "T2",
    issuer := "federation-core", audience := "github-publisher",
    signature := none, evidence_hash := some "eh", consumed := false, consumed_at := none }

set_option maxHeartbeats 4000000 in
/-- C4 witness: at a concrete receipt and secrets the no-collision
hypotheses hold by computation, and verification behaves as stated. -/
theorem sign_verify_tamper_detect_witness :
    Mops.FC.verify_signature "fc-secret-key" (Mops.FC.sign "fc-secret-key" c4_receipt) = true ∧
    Mops.FC.verify_signature "wrong-secret" (Mops.FC.sign "fc-secret-key" c4_receipt) = false ∧
    Mops.FC.verify_signature "fc-secret-key"
      (Mops.FC.flip_enforceable (Mops.FC.sign "fc-secret-key" c4_receipt)) = false := by
  have h := sign_verify_tamper_detect c4_receipt "fc-secret-key" "wrong-secret"
    (by decide) (by decide)
  exact ⟨h.1, h.2.1, h.2.2.1⟩

namespace Mops

namespace FC

/-- Every evidence requirement string of the policy parses: no
`ValueError` can escape `_check_evidence_requirements`. -/
def policy_wellformed (p : AuthorizationPolicy) : Prop :=
  ∀ kr ∈ p.rules, ∀ req ∈ kr.2.require_evidence.getD [], parse_req req ≠ .malformed

instance (p : AuthorizationPolicy) : Decidable (policy_wellformed p) :=
  inferInstanceAs (Decidable (∀ kr ∈ p.rules,
    ∀ req ∈ kr.2.require_evidence.getD [], parse_req req ≠ .malformed))

/-- Well-parsed requirements never raise. -/
theorem check_evidence_requirements_total (reqs : List String)
    (h : ∀ req ∈ reqs, parse_req req ≠ .malformed) (approvers : List String) :
    ∃ b, check_evidence_requirements reqs approvers = .ok b := by
  induction reqs with
  | nil => exact ⟨true, rfl⟩
  | cons head tail ih =>
    have hh := h head (List.mem_cons_self _ _)
    have ih2 := ih (fun q hq => h q (List.mem_cons_of_mem _ hq))
    cases hp : parse_req head with
    | skipped => simpa [check_evidence_requirements, hp] using ih2
    | otherKey => simpa [check_evidence_requirements, hp] using ih2
    | malformed => exact absurd hp hh
    | checkApproval v =>
      by_cases hlt : (approvers.length : Int) < v
      · exact ⟨false, by simp [check_evidence_requirements, hp, hlt]⟩
      · simpa [check_evidence_requirements, hp, hlt] using ih2

/-- With a well-formed policy, validation either passes (`ok true`) or
raises a `PolicyViolationError`; no other outcome is possible. -/
theorem validate_operation_cases (p : AuthorizationPolicy) (context : OperationContext)
    (ev : AuthorizationEvidence) (hwf : policy_wellformed p) :
    validate_operation p context ev = .ok true ∨
      ∃ m, validate_operation p context ev = .error (.policyViolation m) := by
  rcases hres : validate_operation p context ev with e | b
  · unfold validate_operation at hres
    split at hres
    · exact Or.inr ⟨_, hres.symm⟩
    · rename_i op_policy hl
      split at hres
      · rename_i e2 hrc
        injection hres with h1
        unfold repo_check at hrc
        split at hrc
        · exact absurd hrc (by simp)
        · split at hrc
          · exact absurd hrc (by simp)
          · injection hrc with h2
            exact Or.inr ⟨_, by rw [← h1, ← h2]⟩
      · unfold evidence_check at hres
        split at hres
        · exact absurd hres (by simp)
        · rename_i required hre
          have hmem := assoc_lookup_mem _ _ _ hl
          have hwf2 : ∀ req ∈ required, parse_req req ≠ .malformed := by
            have hx := hwf _ hmem
            rw [hre] at hx
            simpa using hx
          obtain ⟨b, hb⟩ := check_evidence_requirements_total required hwf2 ev.approvers
          split at hres
          · rename_i e3 hce
            rw [hb] at hce
            exact absurd hce (by simp)
          · exact absurd hres (by simp)
          · exact Or.inr ⟨_, hres.symm⟩
  · have hb : b = true := by
      unfold validate_operation at hres
      split at hres
      · exact absurd hres (by simp)
      · split at hres
        · exact absurd hres (by simp)
        · unfold evidence_check at hres
          split at hres
          · exact (Except.ok.inj hres).symm
          · split at hres
            · exact absurd hres (by simp)
            · exact (Except.ok.inj hres).symm
            · exact absurd hres (by simp)
    subst hb
    exact Or.inl rfl

end FC

end Mops

open Mops Mops.FC in
/-- C5: with a well-formed policy, `authorize_and_issue_receipt` always
returns a signed receipt and never raises on policy failure: the receipt
verifies under the generator's secret, is stored in `issued_receipts`,
and carries the minted `receipt_id`; if policy validation passes it has
`enforceable = true` and an `"approved"` issuance-audit entry is
appended; if validation fails with message `m` it has
`enforceable = false`, its evidence hash is that of the evidence with
`reason` overwritten by `m`, and a `"denied"` entry is appended. -/
theorem authorize_always_issues (st : ReceiptGenerator) (context : OperationContext)
    (approval_evidence : Option AuthorizationEvidence) (id_now issued_at expires_at : String)
    (hwf : policy_wellformed st.policy) :
    ∃ rcpt st2,
      authorize_and_issue_receipt st context approval_evidence id_now issued_at expires_at =
        .ok (rcpt, st2) ∧
      verify_signature st.fc_secret rcpt = true ∧
      rcpt.receipt_id = generate_receipt_id context id_now ∧
      assoc_lookup st2.issued_receipts rcpt.receipt_id = some rcpt ∧
      (validate_operation st.policy context
          (resolve_evidence st approval_evidence issued_at) = .ok true →
        rcpt.enforceable = true ∧
        st2.issuance_audit = st.issuance_audit ++
          [{ receipt_id := rcpt.receipt_id, run_id := context.run_id,
             operation_kind := kind_value context.operation_kind, enforceable := true,
             decision := "approved", issued_at := issued_at,
             policy_id := st.policy.policy_id }]) ∧
      (∀ m, validate_operation st.policy context
          (resolve_evidence st approval_evidence issued_at) = .error (.policyViolation m) →
        rcpt.enforceable = false ∧
        rcpt.evidence_hash = some (hash_evidence
          { resolve_evidence st approval_evidence issued_at with reason := m }) ∧
        st2.issuance_audit = st.issuance_audit ++
          [{ receipt_id := rcpt.receipt_id, run_id := context.run_id,
             operation_kind := kind_value context.operation_kind, enforceable := false,
             decision := "denied", issued_at := issued_at,
             policy_id := st.policy.policy_id }]) := by
  rcases validate_operation_cases st.policy context
      (resolve_evidence st approval_evidence issued_at) hwf with hok | ⟨m, herr⟩
  · refine ⟨(issue_receipt_tail st context (generate_receipt_id context id_now) true
        "approved" (resolve_evidence st approval_evidence issued_at) issued_at expires_at).1,
      (issue_receipt_tail st context (generate_receipt_id context id_now) true
        "approved" (resolve_evidence st approval_evidence issued_at) issued_at expires_at).2,
      ?_, verify_signature_sign _ _, rfl, assoc_lookup_update_self _ _ _,
      fun _ => ⟨rfl, rfl⟩, fun m2 hm2 => absurd (hok.symm.trans hm2) (by simp)⟩
    unfold authorize_and_issue_receipt
    rw [hok]
  · refine ⟨(issue_receipt_tail st context (generate_receipt_id context id_now) false
        "denied" { resolve_evidence st approval_evidence issued_at with reason := m }
        issued_at expires_at).1,
      (issue_receipt_tail st context (generate_receipt_id context id_now) false
        "denied" { resolve_evidence st approval_evidence issued_at with reason := m }
        issued_at expires_at).2,
      ?_, verify_signature_sign _ _, rfl, assoc_lookup_update_self _ _ _,
      fun hc => absurd (herr.symm.trans hc) (by simp), fun m2 hm2 => ?_⟩
    · unfold authorize_and_issue_receipt
      rw [herr]
    · have hmm : m2 = m := by
        have hx := herr.symm.trans hm2
        simpa using hx.symm
      subst hmm
      exact ⟨rfl, rfl, rfl⟩

/-- A generator whose policy approves `omega/*` releases. -/
def c5_gen : Mops.FC.ReceiptGenerator :=
  { fc_id := "federation-core-test", fc_secret := "test-secret-key",
    policy := { policy_id := "policy-test-v1", version := "1.0",
                rules := [("publish_release",
                  { allowed_repositories := some ["omega/*", "marketops/*"],
                    require_evidence := some [], rate_limit := none })] },
    audience := "github-publisher", issued_receipts := [], issuance_audit := [] }

def c5_context : Mops.FC.OperationContext :=
  { run_id := "campaign-2024-01", operation_kind := .publish_release,
    repository := "omega/marketops", payload := [], evidence := [] }

/-- C5 witness: at a concrete well-formed generator, authorization
returns a receipt. -/
theorem authorize_always_issues_witness :
    ∃ pr, Mops.FC.authorize_and_issue_receipt c5_gen c5_context none "N0" "T1" "T2" =
      .ok pr := by
  obtain ⟨r, st2, heq, -⟩ :=
    authorize_always_issues c5_gen c5_context none "N0" "T1" "T2" (by decide)
  exact ⟨(r, st2), heq⟩
